import Mathlib

/-!
Verification of the ad713x ADC driver (drivers/adc/ad713x/ad713x.c).

The driver is embedded shallowly: every external call (SPI transaction,
GPIO operation, allocation) is recorded as an event in a trace, and an
oracle `W` decides the return code of each call and the bytes an SPI
transaction receives.  Machine bytes are `Nat` taken modulo 256 where the
C type forces it; `uint32_t` complement is explicit XOR with `2^32 - 1`.
-/

/-- Modelled from the spec: success return code (error.h is not among the
sources; the driver treats negative return values as errors). -/
def SUCCESS : Int := 0

/-- Modelled from the spec: failure return code (error.h is not among the
sources; a negative value, distinguished from SUCCESS). -/
def FAILURE : Int := -1

/-- Modelled from the spec: the error test used after each call (error.h is
not among the sources; a return value is an error exactly when negative). -/
def IS_ERR_VALUE (x : Int) : Bool := decide (x < 0)

/-- Modelled from the spec: the read-encoded register address ("the
read-encoded register address" of a two-byte transaction; ad713x.h is not
among the sources).  The read flag is the top bit of the address byte. -/
def AD713X_REG_READ (x : Nat) : Nat := 128 ||| (x &&& 127)

/-- Modelled from the spec: address of the device-config register
(ad713x.h is not among the sources; a distinct register address byte). -/
def AD713X_REG_DEVICE_CONFIG : Nat := 2

/-- Modelled from the spec: address of the device-config-1 register
(ad713x.h is not among the sources; a distinct register address byte). -/
def AD713X_REG_DEVICE_CONFIG1 : Nat := 3

/-- Modelled from the spec: address of the data-packet-config register
(ad713x.h is not among the sources; a distinct register address byte). -/
def AD713X_REG_DATA_PACKET_CONFIG : Nat := 4

/-- Modelled from the spec: address of the digital-interface-config
register (ad713x.h is not among the sources; a distinct address byte). -/
def AD713X_REG_DIGITAL_INTERFACE_CONFIG : Nat := 5

/-- Modelled from the spec: address of the magnitude/phase-calibration
clock-delay config register (ad713x.h is not among the sources). -/
def AD713X_REG_MPC_CONFIG : Nat := 6

/-- Modelled from the spec: address of the channel digital-filter-select
register (ad713x.h is not among the sources). -/
def AD713X_REG_CHAN_DIG_FILTER_SEL : Nat := 7

/-- Modelled from the spec: address of the wideband-filter bandwidth-select
register (ad713x.h is not among the sources). -/
def AD713X_REG_FIR_BW_SEL : Nat := 8

/-- Modelled from the spec: single-bit power-mode field of the
device-config register (ad713x.h is not among the sources). -/
def AD713X_DEV_CONFIG_PWR_MODE_MSK : Nat := 1

/-- Modelled from the spec: CLKOUT-enable bit of the device-config-1
register (ad713x.h is not among the sources). -/
def AD713X_DEV_CONFIG1_CLKOUT_EN_MSK : Nat := 1

/-- Modelled from the spec: reference-gain-correction-enable bit of the
device-config-1 register (ad713x.h is not among the sources). -/
def AD713X_DEV_CONFIG1_REF_GAIN_CORR_EN_MSK : Nat := 2

/-- Modelled from the spec: frame field of the data-packet-config register
(ad713x.h is not among the sources; a three-bit field). -/
def AD713X_DATA_PACKET_CONFIG_FRAME_MSK : Nat := 112

/-- Modelled from the spec: encoding of a frame-mode index into the frame
field of the data-packet-config register. -/
def AD713X_DATA_PACKET_CONFIG_FRAME_MODE (x : Nat) : Nat := (x % 8) <<< 4

/-- Modelled from the spec: DOUTx output-format field of the
digital-interface-config register (ad713x.h is not among the sources). -/
def AD713X_DIG_INT_CONFIG_FORMAT_MSK : Nat := 3

/-- Modelled from the spec: encoding of a DOUTx format into its field. -/
def AD713X_DIG_INT_CONFIG_FORMAT_MODE (x : Nat) : Nat := x % 4

/-- Modelled from the spec: per-channel two-bit clock-delay field of the
MPC config register (ad713x.h is not among the sources). -/
def AD713X_MPC_CLKDEL_EN_CH_MSK (ch : Nat) : Nat := 3 <<< (2 * ch)

/-- Modelled from the spec: encoding of a clock-delay mode into the
per-channel field of the MPC config register. -/
def AD713X_MPC_CLKDEL_EN_CH_MODE (x ch : Nat) : Nat := (x % 4) <<< (2 * ch)

/-- Modelled from the spec: per-channel wideband-bandwidth-select bit of
the FIR bandwidth-select register (ad713x.h is not among the sources). -/
def AD713X_FIR_BW_SEL_CH_MSK (ch : Nat) : Nat := 1 <<< ch

/-- Modelled from the spec: the data-length enumeration listed in the
driver's doc comments, in declaration order, with INVALID the table
sentinel (ad713x.h is not among the sources). -/
def ADC_16_BIT_DATA : Nat := 0

/-- Modelled from the spec: 24-bit conversion data length. -/
def ADC_24_BIT_DATA : Nat := 1

/-- Modelled from the spec: 32-bit conversion data length. -/
def ADC_32_BIT_DATA : Nat := 2

/-- Modelled from the spec: the sentinel entry closing each row of the
output-data-frame lookup table. -/
def INVALID : Nat := 3

/-- Modelled from the spec: no CRC header. -/
def NO_CRC : Nat := 0

/-- Modelled from the spec: 6-bit CRC header. -/
def CRC_6 : Nat := 1

/-- Modelled from the spec: 8-bit CRC header. -/
def CRC_8 : Nat := 2

/-- Modelled from the spec: low power mode (first enumerator). -/
def LOW_POWER : Nat := 0

/-- Modelled from the spec: high power mode (second enumerator). -/
def HIGH_POWER : Nat := 1

/-- Modelled from the spec: channel identifiers CH0..CH3. -/
def CH0 : Nat := 0

/-- Modelled from the spec: channel CH1. -/
def CH1 : Nat := 1

/-- Modelled from the spec: channel CH2. -/
def CH2 : Nat := 2

/-- Modelled from the spec: channel CH3. -/
def CH3 : Nat := 3

/-- Modelled from the spec: no magnitude/phase clock delay. -/
def DELAY_NONE : Nat := 0

/-- Modelled from the spec: one-clock magnitude/phase delay. -/
def DELAY_1_CLOCKS : Nat := 1

/-- Modelled from the spec: two-clock magnitude/phase delay. -/
def DELAY_2_CLOCKS : Nat := 2

/-- The five GPIO lines the driver acquires. -/
inductive GpioId where
  | mode
  | dclkmode
  | dclkio
  | resetn
  | pnd
deriving DecidableEq, Repr

/-- One externally visible action of the driver. -/
inductive Ev where
  | spiXfer (tx : List Nat)
  | gpioGet (g : GpioId)
  | gpioDirOut (g : GpioId) (b : Bool)
  | gpioSet (g : GpioId) (b : Bool)
  | gpioRemove (g : GpioId)
  | spiInit
  | spiRemove
  | callocDev
  | callocSpi
  | freeDev
  | mdelay (ms : Nat)
deriving DecidableEq, Repr

/-- The environment oracle: `ret n` is the return code of the n-th
external call, `rx n tx` the bytes the bus returns when the n-th call is
an SPI transfer sending `tx`. -/
structure W where
  ret : Nat → Int
  rx : Nat → List Nat → List Nat

/-- Trace state: number of external calls made so far and the events. -/
structure St where
  k : Nat
  events : List Ev
deriving DecidableEq, Repr

/-- Perform one external call: consult the oracle, log the event. -/
def ncall (w : W) (s : St) (e : Ev) : Int × St :=
  (w.ret s.k, ⟨s.k + 1, s.events ++ [e]⟩)

/-- Modelled from the spec: the platform SPI transfer (not among the
sources).  Sends `tx`, receives the oracle's bytes, returns the oracle's
code; the transaction is logged. -/
def spi_write_and_read (w : W) (s : St) (tx : List Nat) :
    Int × List Nat × St :=
  (w.ret s.k, w.rx s.k tx, ⟨s.k + 1, s.events ++ [Ev.spiXfer tx]⟩)

/-- The device structure: which handles are non-null, and the variant id.
A fresh device is zeroed by calloc, so every handle starts null. -/
structure dev_state where
  spi_desc : Bool
  gpio_mode : Bool
  gpio_dclkmode : Bool
  gpio_dclkio : Bool
  gpio_resetn : Bool
  gpio_pnd : Bool
  dev_id : Nat
deriving DecidableEq, Repr

/-- Initialization parameters of ad713x_init. -/
structure ad713x_init_param where
  dev_id : Nat
  adc_data_len : Nat
  crc_header : Nat
  format : Nat
  clk_delay_en : Bool
  mode_master_nslave : Bool
  dclkmode_free_ngated : Bool
  dclkio_out_nin : Bool
  pnd : Bool
  spi_common_dev : Bool
deriving DecidableEq, Repr

/-- Embedding of ad713x_spi_reg_read (ad713x.c lines 94-110): send the
read-encoded address and a zero byte; on success store the second received
byte, on error leave `reg_data` unchanged and return FAILURE. -/
def ad713x_spi_reg_read (w : W) (s : St) (dev : dev_state)
    (reg_addr : Nat) (reg_data : Nat) : Int × Nat × St :=
  let r := spi_write_and_read w s [AD713X_REG_READ (reg_addr % 256), 0]
  if IS_ERR_VALUE r.1 then (FAILURE, reg_data, r.2.2)
  else (SUCCESS, r.2.1.getD 1 0 % 256, r.2.2)

/-- Embedding of ad713x_spi_reg_write (ad713x.c lines 119-129): send the
address byte then the data byte, returning the bus code unchanged. -/
def ad713x_spi_reg_write (w : W) (s : St) (dev : dev_state)
    (reg_addr : Nat) (reg_data : Nat) : Int × St :=
  let r := spi_write_and_read w s [reg_addr % 256, reg_data % 256]
  (r.1, r.2.2)

/-- Bitwise complement of a `uint32_t` mask. -/
def not32 (m : Nat) : Nat := 4294967295 ^^^ (m % 4294967296)

/-- Embedding of ad713x_spi_write_mask (ad713x.c lines 139-154):
read-modify-write; the read byte is ANDed with the mask's complement
(truncated to a byte by the uint8_t store) and ORed with the data byte. -/
def ad713x_spi_write_mask (w : W) (s : St) (dev : dev_state)
    (reg_addr : Nat) (mask : Nat) (data : Nat) : Int × St :=
  let r := ad713x_spi_reg_read w s dev reg_addr 0
  if IS_ERR_VALUE r.1 then (FAILURE, r.2.2)
  else ad713x_spi_reg_write w r.2.2 dev reg_addr
    ((r.2.1 &&& not32 mask) ||| data % 256)

/-- Embedding of ad713x_set_power_mode (ad713x.c lines 164-176). -/
def ad713x_set_power_mode (w : W) (s : St) (dev : dev_state)
    (mode : Nat) : Int × St :=
  if mode = LOW_POWER then
    ad713x_spi_write_mask w s dev AD713X_REG_DEVICE_CONFIG
      AD713X_DEV_CONFIG_PWR_MODE_MSK 0
  else if mode = HIGH_POWER then
    ad713x_spi_write_mask w s dev AD713X_REG_DEVICE_CONFIG
      AD713X_DEV_CONFIG_PWR_MODE_MSK 1
  else (FAILURE, s)

/-- Embedding of the static table ad713x_output_data_frame (ad713x.c
lines 54-81): `int[3][9][2]`, rows padded with zero entries past each
row's `{INVALID}` sentinel, exactly as C zero-fills the initializer. -/
def ad713x_output_data_frame : List (List (Nat × Nat)) :=
  [ [ (ADC_16_BIT_DATA, CRC_6), (ADC_24_BIT_DATA, CRC_6),
      (ADC_32_BIT_DATA, NO_CRC), (ADC_32_BIT_DATA, CRC_6),
      (ADC_16_BIT_DATA, NO_CRC), (ADC_24_BIT_DATA, NO_CRC),
      (ADC_24_BIT_DATA, CRC_8), (ADC_32_BIT_DATA, CRC_8),
      (INVALID, 0) ],
    [ (ADC_16_BIT_DATA, NO_CRC), (ADC_16_BIT_DATA, CRC_6),
      (ADC_24_BIT_DATA, NO_CRC), (ADC_24_BIT_DATA, CRC_6),
      (ADC_16_BIT_DATA, CRC_8), (ADC_24_BIT_DATA, CRC_8),
      (INVALID, 0), (0, 0), (0, 0) ],
    [ (ADC_16_BIT_DATA, NO_CRC), (ADC_16_BIT_DATA, CRC_6),
      (ADC_16_BIT_DATA, CRC_8), (INVALID, 0),
      (0, 0), (0, 0), (0, 0), (0, 0), (0, 0) ] ]

/-- The while loop of ad713x_set_out_data_frame over the remaining row
suffix.  `none`: the loop ran off the end of the row (out-of-bounds array
access in C); `some none`: the sentinel stopped the loop without a match;
`some (some i)`: the entry at absolute index `i` matched first. -/
def frame_scan : List (Nat × Nat) → Nat → Nat → Nat → Option (Option Nat)
  | [], _, _, _ => none
  | e :: rest, i, a, h =>
    if e.1 = INVALID then some none
    else if a = e.1 ∧ h = e.2 then some (some i)
    else frame_scan rest (i + 1) a h

/-- Embedding of ad713x_set_out_data_frame (ad713x.c lines 191-212): scan
the variant's row for the (data length, CRC header) pair; on a match write
the index into the frame field, otherwise return FAILURE.  `none` models
the out-of-bounds access the loop would make without a sentinel (also when
`dev_id` indexes past the three rows). -/
def ad713x_set_out_data_frame (w : W) (s : St) (dev : dev_state)
    (adc_data_len : Nat) (crc_header : Nat) : Option (Int × St) :=
  match frame_scan (ad713x_output_data_frame.getD dev.dev_id [])
      0 adc_data_len crc_header with
  | none => none
  | some none => some (FAILURE, s)
  | some (some i) =>
    some (ad713x_spi_write_mask w s dev AD713X_REG_DATA_PACKET_CONFIG
      AD713X_DATA_PACKET_CONFIG_FRAME_MSK
      (AD713X_DATA_PACKET_CONFIG_FRAME_MODE i))

/-- Embedding of ad713x_dout_format_config (ad713x.c lines 225-231). -/
def ad713x_dout_format_config (w : W) (s : St) (dev : dev_state)
    (format : Nat) : Int × St :=
  ad713x_spi_write_mask w s dev AD713X_REG_DIGITAL_INTERFACE_CONFIG
    AD713X_DIG_INT_CONFIG_FORMAT_MSK
    (AD713X_DIG_INT_CONFIG_FORMAT_MODE format)

/-- Embedding of ad713x_mag_phase_clk_delay_chan (ad713x.c lines
280-287). -/
def ad713x_mag_phase_clk_delay_chan (w : W) (s : St) (dev : dev_state)
    (chan : Nat) (mode : Nat) : Int × St :=
  ad713x_spi_write_mask w s dev AD713X_REG_MPC_CONFIG
    (AD713X_MPC_CLKDEL_EN_CH_MSK chan)
    (AD713X_MPC_CLKDEL_EN_CH_MODE mode chan)

/-- The descending channel loop of ad713x_mag_phase_clk_delay (ad713x.c
lines 257-263), unrolled over the list of channel indices it visits. -/
def mpc_loop (w : W) (dev : dev_state) (delay : Nat) :
    List Nat → St → Int × St
  | [], s => (SUCCESS, s)
  | i :: rest, s =>
    let r := ad713x_spi_write_mask w s dev AD713X_REG_MPC_CONFIG
      (AD713X_MPC_CLKDEL_EN_CH_MSK i)
      (AD713X_MPC_CLKDEL_EN_CH_MODE delay i)
    if IS_ERR_VALUE r.1 then (FAILURE, r.2)
    else mpc_loop w dev delay rest r.2

/-- Embedding of the deprecated ad713x_mag_phase_clk_delay (ad713x.c
lines 245-266): channels CH3 down to CH0, two-clock delay when enabled. -/
def ad713x_mag_phase_clk_delay (w : W) (s : St) (dev : dev_state)
    (clk_delay_en : Bool) : Int × St :=
  mpc_loop w dev (if clk_delay_en then DELAY_2_CLOCKS else DELAY_NONE)
    [CH3, CH2, CH1, CH0] s

/-- Embedding of ad713x_dig_filter_sel_ch (ad713x.c lines 305-312). -/
def AD713X_DIGFILTER_SEL_CH_MSK (ch : Nat) : Nat := 7 <<< (3 * ch)

/-- Modelled from the spec: encoding of a filter choice into the
per-channel filter field (ad713x.h is not among the sources). -/
def AD713X_DIGFILTER_SEL_CH_MODE (x ch : Nat) : Nat := (x % 8) <<< (3 * ch)

/-- Embedding of ad713x_clkout_output_en (ad713x.c lines 321-326). -/
def ad713x_clkout_output_en (w : W) (s : St) (dev : dev_state)
    (enable : Bool) : Int × St :=
  ad713x_spi_write_mask w s dev AD713X_REG_DEVICE_CONFIG1
    AD713X_DEV_CONFIG1_CLKOUT_EN_MSK
    (if enable then AD713X_DEV_CONFIG1_CLKOUT_EN_MSK else 0)

/-- Embedding of ad713x_ref_gain_correction_en (ad713x.c lines
335-340). -/
def ad713x_ref_gain_correction_en (w : W) (s : St) (dev : dev_state)
    (enable : Bool) : Int × St :=
  ad713x_spi_write_mask w s dev AD713X_REG_DEVICE_CONFIG1
    AD713X_DEV_CONFIG1_REF_GAIN_CORR_EN_MSK
    (if enable then AD713X_DEV_CONFIG1_REF_GAIN_CORR_EN_MSK else 0)

/-- Embedding of ad713x_wideband_bw_sel (ad713x.c lines 354-360). -/
def ad713x_wideband_bw_sel (w : W) (s : St) (dev : dev_state)
    (ch : Nat) (wb_opt : Nat) : Int × St :=
  ad713x_spi_write_mask w s dev AD713X_REG_FIR_BW_SEL
    (AD713X_FIR_BW_SEL_CH_MSK ch)
    (if wb_opt ≠ 0 then AD713X_FIR_BW_SEL_CH_MSK ch else 0)

/-- Embedding of ad713x_init_gpio (ad713x.c lines 369-429): acquire the
five GPIO lines in order, set the four mode pins, then pulse reset low
and high with 100 ms delays.  A handle is set on a successful gpio_get
and the partially updated device is returned on failure (modelled from
the spec: the platform gpio functions are not among the sources; gpio_get
sets the handle exactly when it succeeds). -/
def ad713x_init_gpio (w : W) (s : St) (dev : dev_state)
    (p : ad713x_init_param) : Int × dev_state × St :=
  let r1 := ncall w s (Ev.gpioGet GpioId.mode)
  if IS_ERR_VALUE r1.1 then (FAILURE, dev, r1.2) else
  let dev := { dev with gpio_mode := true }
  let r2 := ncall w r1.2 (Ev.gpioGet GpioId.dclkmode)
  if IS_ERR_VALUE r2.1 then (FAILURE, dev, r2.2) else
  let dev := { dev with gpio_dclkmode := true }
  let r3 := ncall w r2.2 (Ev.gpioGet GpioId.dclkio)
  if IS_ERR_VALUE r3.1 then (FAILURE, dev, r3.2) else
  let dev := { dev with gpio_dclkio := true }
  let r4 := ncall w r3.2 (Ev.gpioGet GpioId.resetn)
  if IS_ERR_VALUE r4.1 then (FAILURE, dev, r4.2) else
  let dev := { dev with gpio_resetn := true }
  let r5 := ncall w r4.2 (Ev.gpioGet GpioId.pnd)
  if IS_ERR_VALUE r5.1 then (FAILURE, dev, r5.2) else
  let dev := { dev with gpio_pnd := true }
  let r6 := ncall w r5.2 (Ev.gpioDirOut GpioId.mode p.mode_master_nslave)
  if IS_ERR_VALUE r6.1 then (FAILURE, dev, r6.2) else
  let r7 := ncall w r6.2
    (Ev.gpioDirOut GpioId.dclkmode p.dclkmode_free_ngated)
  if IS_ERR_VALUE r7.1 then (FAILURE, dev, r7.2) else
  let r8 := ncall w r7.2 (Ev.gpioDirOut GpioId.dclkio p.dclkio_out_nin)
  if IS_ERR_VALUE r8.1 then (FAILURE, dev, r8.2) else
  let r9 := ncall w r8.2 (Ev.gpioDirOut GpioId.pnd p.pnd)
  if IS_ERR_VALUE r9.1 then (FAILURE, dev, r9.2) else
  let r10 := ncall w r9.2 (Ev.gpioDirOut GpioId.resetn false)
  if IS_ERR_VALUE r10.1 then (FAILURE, dev, r10.2) else
  let r11 := ncall w r10.2 (Ev.mdelay 100)
  let r12 := ncall w r11.2 (Ev.gpioSet GpioId.resetn true)
  if IS_ERR_VALUE r12.1 then (FAILURE, dev, r12.2) else
  let r13 := ncall w r12.2 (Ev.mdelay 100)
  (SUCCESS, dev, r13.2)

/-- One guarded block of ad713x_remove_gpio: remove the line `g` when the
guard `present` holds, failing when the removal fails. -/
def gpio_rm_step (w : W) (present : Bool) (g : GpioId) (s : St) :
    Int × St :=
  if present then
    let r := ncall w s (Ev.gpioRemove g)
    if IS_ERR_VALUE r.1 then (FAILURE, r.2) else (SUCCESS, r.2)
  else (SUCCESS, s)

/-- Embedding of ad713x_remove_gpio (ad713x.c lines 436-467).  Note the
second block removes gpio_dclkmode but its guard tests gpio_dclkio,
exactly as the source does. -/
def ad713x_remove_gpio (w : W) (s : St) (dev : dev_state) : Int × St :=
  let r1 := gpio_rm_step w dev.gpio_dclkio GpioId.dclkio s
  if IS_ERR_VALUE r1.1 then (FAILURE, r1.2) else
  let r2 := gpio_rm_step w dev.gpio_dclkio GpioId.dclkmode r1.2
  if IS_ERR_VALUE r2.1 then (FAILURE, r2.2) else
  let r3 := gpio_rm_step w dev.gpio_mode GpioId.mode r2.2
  if IS_ERR_VALUE r3.1 then (FAILURE, r3.2) else
  let r4 := gpio_rm_step w dev.gpio_pnd GpioId.pnd r3.2
  if IS_ERR_VALUE r4.1 then (FAILURE, r4.2) else
  let r5 := gpio_rm_step w dev.gpio_resetn GpioId.resetn r4.2
  if IS_ERR_VALUE r5.1 then (FAILURE, r5.2) else
  (SUCCESS, r5.2)

/-- The descending channel loop of ad713x_init_chan_bw (ad713x.c lines
480-484), unrolled over the list of channel indices it visits. -/
def bw_loop (w : W) (dev : dev_state) : List Nat → St → Int × St
  | [], s => (SUCCESS, s)
  | i :: rest, s =>
    let r := ad713x_wideband_bw_sel w s dev i 0
    if IS_ERR_VALUE r.1 then (FAILURE, r.2)
    else bw_loop w dev rest r.2

/-- Embedding of ad713x_init_chan_bw (ad713x.c lines 475-487): wideband
bandwidth option 0 for channels CH3 down to CH0. -/
def ad713x_init_chan_bw (w : W) (s : St) (dev : dev_state) : Int × St :=
  bw_loop w dev [CH3, CH2, CH1, CH0] s

/-- Embedding of ad713x_remove (ad713x.c lines 575-593): a null device
returns FAILURE at once; otherwise remove the SPI descriptor, then the
GPIO lines, then free the device structure. -/
def ad713x_remove (w : W) (s : St) (dev : Option dev_state) : Int × St :=
  match dev with
  | none => (FAILURE, s)
  | some d =>
    let r1 := ncall w s Ev.spiRemove
    if IS_ERR_VALUE r1.1 then (FAILURE, r1.2) else
    let r2 := ad713x_remove_gpio w r1.2 d
    if IS_ERR_VALUE r2.1 then (FAILURE, r2.2) else
    let r3 := ncall w r2.2 Ev.freeDev
    (SUCCESS, r3.2)

/-- The error_gpio label of ad713x_init (ad713x.c lines 562-565):
ad713x_remove_gpio, then falling through into error_dev's
ad713x_remove, both return values discarded. -/
def ad713x_init_error_gpio (w : W) (s : St) (dev : dev_state) :
    Int × Option dev_state × St :=
  let r := ad713x_remove_gpio w s dev
  let r2 := ad713x_remove w r.2 (some dev)
  (FAILURE, none, r2.2)

/-- The error_dev label of ad713x_init (ad713x.c lines 564-567):
ad713x_remove, return value discarded. -/
def ad713x_init_error_dev (w : W) (s : St) (dev : dev_state) :
    Int × Option dev_state × St :=
  (FAILURE, none, (ad713x_remove w s (some dev)).2)

/-- The body of ad713x_init after the SPI descriptor has been set up
(ad713x.c lines 519-560 and the error labels). -/
def ad713x_init_rest (w : W) (s : St) (dev : dev_state)
    (p : ad713x_init_param) : Option (Int × Option dev_state × St) :=
  let g := ad713x_init_gpio w s dev p
  let dev := g.2.1
  if IS_ERR_VALUE g.1 then some (ad713x_init_error_gpio w g.2.2 dev) else
  let dev := { dev with dev_id := p.dev_id }
  let rr := ad713x_spi_reg_read w g.2.2 dev AD713X_REG_DEVICE_CONFIG 0
  if IS_ERR_VALUE rr.1 then some (ad713x_init_error_gpio w rr.2.2 dev) else
  let rw := ad713x_spi_reg_write w rr.2.2 dev AD713X_REG_DEVICE_CONFIG
    (rr.2.1 ||| AD713X_DEV_CONFIG_PWR_MODE_MSK)
  if IS_ERR_VALUE rw.1 then some (ad713x_init_error_gpio w rw.2 dev) else
  let rc := ad713x_clkout_output_en w rw.2 dev true
  if IS_ERR_VALUE rc.1 then some (ad713x_init_error_gpio w rc.2 dev) else
  let rg := ad713x_ref_gain_correction_en w rc.2 dev true
  if IS_ERR_VALUE rg.1 then some (ad713x_init_error_gpio w rg.2 dev) else
  match ad713x_set_out_data_frame w rg.2 dev p.adc_data_len
      p.crc_header with
  | none => none
  | some rf =>
    if IS_ERR_VALUE rf.1 then some (ad713x_init_error_gpio w rf.2 dev) else
    let rd := ad713x_dout_format_config w rf.2 dev p.format
    if IS_ERR_VALUE rd.1 then some (ad713x_init_error_gpio w rd.2 dev) else
    let rm := ad713x_mag_phase_clk_delay w rd.2 dev p.clk_delay_en
    if IS_ERR_VALUE rm.1 then some (ad713x_init_error_gpio w rm.2 dev) else
    let rb := ad713x_init_chan_bw w rm.2 dev
    if IS_ERR_VALUE rb.1 then some (ad713x_init_error_gpio w rb.2 dev) else
    some (SUCCESS, some dev, rb.2)

/-- Embedding of ad713x_init (ad713x.c lines 496-568): allocate the
zeroed device, set up the SPI descriptor (fresh spi_init, or a copy of
the common descriptor), then the GPIO and register configuration
sequence.  The result is `none` when the frame lookup would access the
table out of bounds; otherwise `some (code, device out-pointer, trace)`,
the out-pointer written only on success. -/
def ad713x_init (w : W) (s : St) (p : ad713x_init_param) :
    Option (Int × Option dev_state × St) :=
  let r0 := ncall w s Ev.callocDev
  if IS_ERR_VALUE r0.1 then some (FAILURE, none, r0.2) else
  let dev : dev_state := ⟨false, false, false, false, false, false, 0⟩
  if p.spi_common_dev = false then
    let r1 := ncall w r0.2 Ev.spiInit
    if IS_ERR_VALUE r1.1 then
      some (ad713x_init_error_dev w r1.2 dev)
    else
      ad713x_init_rest w r1.2 { dev with spi_desc := true } p
  else
    let r1 := ncall w r0.2 Ev.callocSpi
    ad713x_init_rest w r1.2 { dev with spi_desc := true } p

/-- An environment in which every call succeeds with code 0 and every SPI
transfer receives the bytes `[0, 0]`. -/
def w0 : W := ⟨fun _ => 0, fun _ _ => [0, 0]⟩

/-- An environment in which the fifth external call (index 4) fails and
every other call succeeds; SPI transfers receive `[0, 0]`. -/
def w1 : W := ⟨fun n => if n = 4 then -1 else 0, fun _ _ => [0, 0]⟩

/-- The empty initial trace. -/
def st0 : St := ⟨0, []⟩

/-- A freshly zeroed device of variant 0. -/
def dev0 : dev_state := ⟨false, false, false, false, false, false, 0⟩

/-- A fully initialized device: SPI descriptor and all five GPIO handles
held. -/
def devFull : dev_state := ⟨true, true, true, true, true, true, 0⟩

/-- Concrete initialization parameters: variant 0, 16-bit data with CRC-6,
format 0, no clock delay, all pins low, fresh SPI descriptor. -/
def p1 : ad713x_init_param :=
  ⟨0, ADC_16_BIT_DATA, CRC_6, 0, false, false, false, false, false, false⟩

/-- The frame-table scan agrees with searching the part of the row before
the sentinel, provided the sentinel is present. -/
theorem frame_scan_eq (a h : Nat) : ∀ (row : List (Nat × Nat)) (i : Nat),
    INVALID ∈ row.map Prod.fst →
    frame_scan row i a h =
      some ((row.takeWhile fun e => e.1 != INVALID).findIdx?
        (fun e => e.1 == a && e.2 == h) i) := by
  intro row
  induction row with
  | nil => intro i hmem; simp at hmem
  | cons e rest ih =>
    intro i hmem
    by_cases h1 : e.1 = INVALID
    · have ht : List.takeWhile (fun e => e.1 != INVALID) (e :: rest) = [] := by
        rw [List.takeWhile_cons_of_neg]
        simp [h1]
      rw [frame_scan, if_pos h1, ht, List.findIdx?_nil]
    · have ht : List.takeWhile (fun e => e.1 != INVALID) (e :: rest)
          = e :: List.takeWhile (fun e => e.1 != INVALID) rest := by
        rw [List.takeWhile_cons_of_pos]
        simp [h1]
      by_cases h2 : a = e.1 ∧ h = e.2
      · have hp : (e.1 == a && e.2 == h) = true := by
          obtain ⟨ha, hh⟩ := h2
          simp [← ha, ← hh]
        rw [frame_scan, if_neg h1, if_pos h2, ht, List.findIdx?_cons]
        simp [hp]
      · have hmem' : INVALID ∈ rest.map Prod.fst := by
          simp only [List.map_cons, List.mem_cons] at hmem
          exact hmem.resolve_left (fun hh => h1 hh.symm)
        have hp : (e.1 == a && e.2 == h) = false := by
          by_contra hc
          rw [Bool.not_eq_false] at hc
          simp only [Bool.and_eq_true, beq_iff_eq] at hc
          exact h2 ⟨hc.1.symm, hc.2.symm⟩
        rw [frame_scan, if_neg h1, if_neg h2, ht, List.findIdx?_cons]
        simp only [hp, Bool.false_eq_true, if_false]
        exact ih (i + 1) hmem'

/-- C10: ad713x_remove on a null device pointer returns FAILURE and
performs no action at all: no SPI removal, no GPIO removal, no
deallocation, the trace unchanged. -/
theorem c10_remove_null (w : W) (s : St) :
    ad713x_remove w s none = (FAILURE, s) := rfl

/-- C5: every register access is one two-byte transaction.
ad713x_spi_reg_write sends the address byte then the data byte and
returns the bus code; ad713x_spi_reg_read sends the read-encoded address
followed by a zero byte and, when the transaction succeeds, returns
SUCCESS with the second received byte, while on a transaction error it
returns FAILURE with `rd` (the prior contents of *reg_data) unchanged. -/
theorem c5_reg_access_transactions (w : W) (s : St) (dev : dev_state)
    (reg_addr reg_data rd : Nat) :
    ad713x_spi_reg_write w s dev reg_addr reg_data =
      (w.ret s.k,
       ⟨s.k + 1, s.events ++ [Ev.spiXfer [reg_addr % 256, reg_data % 256]]⟩)
    ∧ ad713x_spi_reg_read w s dev reg_addr rd =
      (if IS_ERR_VALUE (w.ret s.k) then
        (FAILURE, rd,
         ⟨s.k + 1,
          s.events ++ [Ev.spiXfer [AD713X_REG_READ (reg_addr % 256), 0]]⟩)
      else
        (SUCCESS,
         (w.rx s.k [AD713X_REG_READ (reg_addr % 256), 0]).getD 1 0 % 256,
         ⟨s.k + 1,
          s.events ++ [Ev.spiXfer [AD713X_REG_READ (reg_addr % 256), 0]]⟩)) := by
  refine ⟨rfl, ?_⟩
  by_cases hr : IS_ERR_VALUE (w.ret s.k) <;>
    simp [ad713x_spi_reg_read, spi_write_and_read, hr]

/-- C6: ad713x_set_power_mode with LOW_POWER is the masked write of 0 to
the power-mode field of the device-config register, with HIGH_POWER the
masked write of 1 to the same field, and with any other mode value it
returns FAILURE leaving the trace untouched (no register access). -/
theorem c6_power_mode (w : W) (s : St) (dev : dev_state) :
    ad713x_set_power_mode w s dev LOW_POWER =
      ad713x_spi_write_mask w s dev AD713X_REG_DEVICE_CONFIG
        AD713X_DEV_CONFIG_PWR_MODE_MSK 0
    ∧ ad713x_set_power_mode w s dev HIGH_POWER =
      ad713x_spi_write_mask w s dev AD713X_REG_DEVICE_CONFIG
        AD713X_DEV_CONFIG_PWR_MODE_MSK 1
    ∧ ∀ mode, mode ≠ LOW_POWER → mode ≠ HIGH_POWER →
        ad713x_set_power_mode w s dev mode = (FAILURE, s) := by
  refine ⟨rfl, rfl, ?_⟩
  intro mode h0 h1
  simp [ad713x_set_power_mode, h0, h1]

/-- C6 witness: at the invalid mode value 5 the power-mode setter fails
without touching the trace. -/
theorem c6_power_mode_witness :
    ad713x_set_power_mode w0 st0 dev0 5 = (FAILURE, st0) :=
  (c6_power_mode w0 st0 dev0).2.2 5 (by decide) (by decide)

/-- The sequence of ad713x_mag_phase_clk_delay_chan calls described by
the claim: the given channels in order, with the given mode, stopping
with FAILURE at the first failing write, SUCCESS when all succeed. -/
def mag_phase_chan_seq (w : W) (dev : dev_state) (mode : Nat) :
    List Nat → St → Int × St
  | [], s => (SUCCESS, s)
  | ch :: rest, s =>
    let r := ad713x_mag_phase_clk_delay_chan w s dev ch mode
    if IS_ERR_VALUE r.1 then (FAILURE, r.2)
    else mag_phase_chan_seq w dev mode rest r.2

/-- C8: the deprecated ad713x_mag_phase_clk_delay performs exactly the
register accesses of calling ad713x_mag_phase_clk_delay_chan on CH3,
CH2, CH1, CH0 in that order, with DELAY_2_CLOCKS when enabled and
DELAY_NONE otherwise, stopping with FAILURE at the first failing write
and returning SUCCESS when all four succeed. -/
theorem c8_mag_phase_refines_chan (w : W) (s : St) (dev : dev_state)
    (clk_delay_en : Bool) :
    ad713x_mag_phase_clk_delay w s dev clk_delay_en =
      mag_phase_chan_seq w dev
        (if clk_delay_en then DELAY_2_CLOCKS else DELAY_NONE)
        [CH3, CH2, CH1, CH0] s := rfl

/-- C1: for a device whose variant id is 0, 1 or 2,
ad713x_set_out_data_frame is the masked write of frame index `i` into the
frame field of the data-packet-config register exactly when `i` is the
first row of the variant's table, before the INVALID sentinel, equal to
the pair (adc_data_len, crc_header); when no such row exists it returns
FAILURE with the trace untouched (no register write). -/
theorem c1_out_data_frame_lookup (w : W) (s : St) (dev : dev_state)
    (a h : Nat) (hid : dev.dev_id < 3) :
    ad713x_set_out_data_frame w s dev a h =
      some (match ((ad713x_output_data_frame.getD dev.dev_id []).takeWhile
            fun e => e.1 != INVALID).findIdx?
            (fun e => e.1 == a && e.2 == h) 0 with
        | some i =>
          ad713x_spi_write_mask w s dev AD713X_REG_DATA_PACKET_CONFIG
            AD713X_DATA_PACKET_CONFIG_FRAME_MSK
            (AD713X_DATA_PACKET_CONFIG_FRAME_MODE i)
        | none => (FAILURE, s)) := by
  have h3 : dev.dev_id = 0 ∨ dev.dev_id = 1 ∨ dev.dev_id = 2 := by omega
  have hmem : INVALID ∈
      (ad713x_output_data_frame.getD dev.dev_id []).map Prod.fst := by
    rcases h3 with hh | hh | hh <;> rw [hh] <;> decide
  unfold ad713x_set_out_data_frame
  rw [frame_scan_eq a h _ 0 hmem]
  cases ((ad713x_output_data_frame.getD dev.dev_id []).takeWhile
      fun e => e.1 != INVALID).findIdx? (fun e => e.1 == a && e.2 == h) 0 with
  | none => rfl
  | some i => rfl

/-- C1 witness: on variant 0 the pair (16-bit data, CRC-6) is row 0, so
the call is the masked write of frame index 0. -/
theorem c1_out_data_frame_lookup_witness :
    ad713x_set_out_data_frame w0 st0 dev0 ADC_16_BIT_DATA CRC_6 =
      some (ad713x_spi_write_mask w0 st0 dev0 AD713X_REG_DATA_PACKET_CONFIG
        AD713X_DATA_PACKET_CONFIG_FRAME_MSK
        (AD713X_DATA_PACKET_CONFIG_FRAME_MODE 0)) := by
  simpa using
    c1_out_data_frame_lookup w0 st0 dev0 ADC_16_BIT_DATA CRC_6 (by decide)

/-- C9: for a device whose variant id is 0, 1 or 2 the table scan of
ad713x_set_out_data_frame never runs off the table (the result is never
the out-of-bounds marker `none`), each variant row carries the INVALID
sentinel that stops the loop, and any matched index lies inside the
row's bounds. -/
theorem c9_scan_stays_in_bounds (w : W) (s : St) (dev : dev_state)
    (a h : Nat) (hid : dev.dev_id < 3) :
    (ad713x_set_out_data_frame w s dev a h).isSome = true
    ∧ INVALID ∈ (ad713x_output_data_frame.getD dev.dev_id []).map Prod.fst
    ∧ ∀ i, ((ad713x_output_data_frame.getD dev.dev_id []).takeWhile
          fun e => e.1 != INVALID).findIdx?
          (fun e => e.1 == a && e.2 == h) 0 = some i →
        i < (ad713x_output_data_frame.getD dev.dev_id []).length := by
  have h3 : dev.dev_id = 0 ∨ dev.dev_id = 1 ∨ dev.dev_id = 2 := by omega
  have hmem : INVALID ∈
      (ad713x_output_data_frame.getD dev.dev_id []).map Prod.fst := by
    rcases h3 with hh | hh | hh <;> rw [hh] <;> decide
  refine ⟨?_, hmem, ?_⟩
  · unfold ad713x_set_out_data_frame
    rw [frame_scan_eq a h _ 0 hmem]
    cases ((ad713x_output_data_frame.getD dev.dev_id []).takeWhile
        fun e => e.1 != INVALID).findIdx?
        (fun e => e.1 == a && e.2 == h) 0 with
    | none => rfl
    | some i => rfl
  · intro i hfi
    have hlt := (List.findIdx?_eq_some_iff_findIdx_eq.mp hfi).1
    have hle := (List.takeWhile_sublist
      (l := ad713x_output_data_frame.getD dev.dev_id [])
      (fun e => e.1 != INVALID)).length_le
    omega

/-- C9 witness: at variant 0 with the pair (16-bit data, CRC-6) the scan
succeeds, the sentinel is present, and the matched index 0 is in
bounds. -/
theorem c9_scan_stays_in_bounds_witness :
    (ad713x_set_out_data_frame w0 st0 dev0 ADC_16_BIT_DATA CRC_6).isSome
      = true ∧
    INVALID ∈ (ad713x_output_data_frame.getD dev0.dev_id []).map Prod.fst :=
  ⟨(c9_scan_stays_in_bounds w0 st0 dev0 ADC_16_BIT_DATA CRC_6 (by decide)).1,
   (c9_scan_stays_in_bounds w0 st0 dev0 ADC_16_BIT_DATA CRC_6 (by decide)).2.1⟩

/-- C2 counterexample: with mask 0 (selecting no bits) and data byte 1,
the read byte is 0 yet the byte written back is 1 — bit 0, which lies
outside the mask, differs between the value read and the value written,
so the masked write does not leave all non-mask bits unchanged for every
data byte. -/
theorem c2_write_mask_counterexample :
    (ad713x_spi_write_mask w0 st0 dev0 5 0 1).2.events =
      [Ev.spiXfer [AD713X_REG_READ 5, 0], Ev.spiXfer [5, 1]]
    ∧ (w0.rx 0 [AD713X_REG_READ 5, 0]).getD 1 0 % 256 = 0
    ∧ Nat.testBit (0 : Nat) 0 = false
    ∧ Nat.testBit (1 : Nat) 0 ≠ Nat.testBit (0 : Nat) 0 := by
  refine ⟨by decide, by decide, by decide, by decide⟩

/-- C2 (amended): when the read transaction succeeds and the data byte
has no bits outside the mask, ad713x_spi_write_mask writes back a byte
that agrees with the byte just read on every bit position outside the
mask. -/
theorem c2_write_mask_preserves_unmasked (w : W) (s : St)
    (dev : dev_state) (reg_addr mask data : Nat)
    (hok : IS_ERR_VALUE (w.ret s.k) = false)
    (hdata : data % 256 &&& not32 mask = 0) :
    ad713x_spi_write_mask w s dev reg_addr mask data =
      (w.ret (s.k + 1),
       ⟨s.k + 2, s.events ++
         [Ev.spiXfer [AD713X_REG_READ (reg_addr % 256), 0],
          Ev.spiXfer [reg_addr % 256,
            ((((w.rx s.k [AD713X_REG_READ (reg_addr % 256), 0]).getD 1 0
                % 256) &&& not32 mask) ||| data % 256) % 256]]⟩)
    ∧ ∀ j, (mask % 4294967296).testBit j = false →
        (((((w.rx s.k [AD713X_REG_READ (reg_addr % 256), 0]).getD 1 0
            % 256) &&& not32 mask) ||| data % 256)).testBit j
          = ((w.rx s.k [AD713X_REG_READ (reg_addr % 256), 0]).getD 1 0
              % 256).testBit j := by
  constructor
  · simp only [ad713x_spi_write_mask, ad713x_spi_reg_read,
      ad713x_spi_reg_write, spi_write_and_read, hok, Bool.false_eq_true,
      if_false]
    simp [IS_ERR_VALUE, SUCCESS, Nat.add_assoc]
  · intro j hj
    have hnot : (not32 mask).testBit j = decide (j < 32) := by
      rw [not32, Nat.testBit_xor, hj, Bool.xor_false,
        (show (4294967295 : Nat) = 2 ^ 32 - 1 by norm_num),
        Nat.testBit_two_pow_sub_one]
    rcases Nat.lt_or_ge j 32 with hlt | hge
    · have hdec : decide (j < 32) = true := by simp [hlt]
      have hd : (data % 256).testBit j = false := by
        have h0 := congrArg (fun n => Nat.testBit n j) hdata
        simp only [Nat.testBit_and, hnot, hdec, Bool.and_true,
          Nat.zero_testBit] at h0
        exact h0
      rw [Nat.testBit_or, Nat.testBit_and, hnot, hdec, hd]
      simp
    · have hdec : decide (j < 32) = false := by
        simp [Nat.not_lt.mpr hge]
      have hbyte : ∀ x : Nat, (x % 256).testBit j = false := by
        intro x
        apply Nat.testBit_eq_false_of_lt
        have h1 : x % 256 < 256 := Nat.mod_lt _ (by norm_num)
        have h2 : (256 : Nat) ≤ 2 ^ j := by
          calc (256 : Nat) = 2 ^ 8 := by norm_num
          _ ≤ 2 ^ j := Nat.pow_le_pow_right (by norm_num) (by omega)
        omega
      rw [Nat.testBit_or, Nat.testBit_and, hnot, hdec, hbyte data,
        hbyte _]
      simp

/-- C2 witness: concrete masked write with mask 1 and in-mask data 1 on
the all-success environment; bit 1 lies outside the mask and the written
byte agrees there with the byte read. -/
theorem c2_write_mask_preserves_unmasked_witness :
    ad713x_spi_write_mask w0 st0 dev0 5 1 1 =
      (0, ⟨2, [Ev.spiXfer [133, 0], Ev.spiXfer [5, 1]]⟩)
    ∧ Nat.testBit
        ((((w0.rx 0 [AD713X_REG_READ (5 % 256), 0]).getD 1 0 % 256)
          &&& not32 1) ||| 1 % 256) 1
      = Nat.testBit
          ((w0.rx 0 [AD713X_REG_READ (5 % 256), 0]).getD 1 0 % 256) 1 := by
  have hc := c2_write_mask_preserves_unmasked w0 st0 dev0 5 1 1
    (by decide) (by decide)
  exact ⟨by simpa using hc.1, hc.2 1 (by decide)⟩

/-- C4 counterexample: removing a fully initialized device releases the
SPI descriptor first and then the GPIO lines in the order dclkio,
dclkmode, mode, pnd, resetn — the first released resource is the SPI
descriptor, not a GPIO line, and the GPIO order is not the reverse of
the acquisition order (mode, dclkmode, dclkio, resetn, pnd), so the
claimed release order is false. -/
theorem c4_remove_order_counterexample :
    ad713x_remove w0 st0 (some devFull) =
      (SUCCESS, ⟨7, [Ev.spiRemove, Ev.gpioRemove GpioId.dclkio,
        Ev.gpioRemove GpioId.dclkmode, Ev.gpioRemove GpioId.mode,
        Ev.gpioRemove GpioId.pnd, Ev.gpioRemove GpioId.resetn,
        Ev.freeDev]⟩)
    ∧ (ad713x_remove w0 st0 (some devFull)).2.events.head?
        = some Ev.spiRemove
    ∧ (ad713x_remove w0 st0 (some devFull)).2.events ≠
        [Ev.gpioRemove GpioId.pnd, Ev.gpioRemove GpioId.resetn,
         Ev.gpioRemove GpioId.dclkio, Ev.gpioRemove GpioId.dclkmode,
         Ev.gpioRemove GpioId.mode, Ev.spiRemove, Ev.freeDev] := by
  refine ⟨by decide, by decide, by decide⟩

/-- C4 (amended): on a fully initialized device, when every platform call
succeeds, ad713x_remove releases the SPI descriptor first and then each
GPIO handle exactly once in the order dclkio, dclkmode, mode, pnd,
resetn, frees the device structure, and returns SUCCESS. -/
theorem c4_remove_release_order (w : W) (s : St) (d : dev_state)
    (hok : ∀ n, IS_ERR_VALUE (w.ret n) = false)
    (hm : d.gpio_mode = true) (hdm : d.gpio_dclkmode = true)
    (hdi : d.gpio_dclkio = true) (hr : d.gpio_resetn = true)
    (hp : d.gpio_pnd = true) :
    ad713x_remove w s (some d) =
      (SUCCESS, ⟨s.k + 7, s.events ++
        [Ev.spiRemove, Ev.gpioRemove GpioId.dclkio,
         Ev.gpioRemove GpioId.dclkmode, Ev.gpioRemove GpioId.mode,
         Ev.gpioRemove GpioId.pnd, Ev.gpioRemove GpioId.resetn,
         Ev.freeDev]⟩) := by
  simp only [ad713x_remove, ad713x_remove_gpio, gpio_rm_step, ncall,
    hok, hm, hdm, hdi, hr, hp, Bool.false_eq_true, if_false, if_true]
  simp [IS_ERR_VALUE, SUCCESS, Nat.add_assoc, List.append_assoc]

/-- C4 witness: the amended release order at the concrete all-success
environment and fully initialized device. -/
theorem c4_remove_release_order_witness :
    ad713x_remove w0 st0 (some devFull) =
      (SUCCESS, ⟨7, [Ev.spiRemove, Ev.gpioRemove GpioId.dclkio,
        Ev.gpioRemove GpioId.dclkmode, Ev.gpioRemove GpioId.mode,
        Ev.gpioRemove GpioId.pnd, Ev.gpioRemove GpioId.resetn,
        Ev.freeDev]⟩) := by
  rw [c4_remove_release_order w0 st0 devFull (fun n => rfl)
    rfl rfl rfl rfl rfl]
  decide

/-- The event trace ad713x_init produces in the environment `w1`, where
the acquisition of the dclkio GPIO line (the fifth call) fails. -/
def c3_trace : List Ev :=
  [Ev.callocDev, Ev.spiInit, Ev.gpioGet GpioId.mode,
   Ev.gpioGet GpioId.dclkmode, Ev.gpioGet GpioId.dclkio,
   Ev.gpioRemove GpioId.mode, Ev.spiRemove,
   Ev.gpioRemove GpioId.mode, Ev.freeDev] 

/-- C3: the error path of ad713x_init does not release each acquired
resource exactly once.  When gpio_get for dclkio fails after mode and
dclkmode were acquired, the unwind releases the mode GPIO twice (once in
the error_gpio label and again inside ad713x_remove) and never releases
the acquired dclkmode GPIO, whose removal is guarded by the dclkio
handle. -/
theorem c3_init_error_unwind_bug :
    ad713x_init w1 st0 p1 = some (FAILURE, none, ⟨9, c3_trace⟩)
    ∧ c3_trace.count (Ev.gpioGet GpioId.dclkmode) = 1
    ∧ c3_trace.count (Ev.gpioRemove GpioId.dclkmode) = 0
    ∧ c3_trace.count (Ev.gpioRemove GpioId.mode) = 2 := by
  refine ⟨by decide, by decide, by decide, by decide⟩

/-- The frame-mode field encoding is a byte. -/
theorem frame_mode_mod (x : Nat) :
    AD713X_DATA_PACKET_CONFIG_FRAME_MODE x % 256 =
      AD713X_DATA_PACKET_CONFIG_FRAME_MODE x := by
  unfold AD713X_DATA_PACKET_CONFIG_FRAME_MODE
  rw [Nat.shiftLeft_eq]
  apply Nat.mod_eq_of_lt
  have h1 : x % 8 < 8 := Nat.mod_lt _ (by norm_num)
  omega

/-- The DOUTx format field encoding is a byte. -/
theorem format_mode_mod (x : Nat) :
    AD713X_DIG_INT_CONFIG_FORMAT_MODE x % 256 =
      AD713X_DIG_INT_CONFIG_FORMAT_MODE x := by
  unfold AD713X_DIG_INT_CONFIG_FORMAT_MODE
  apply Nat.mod_eq_of_lt
  have h1 : x % 4 < 4 := Nat.mod_lt _ (by norm_num)
  omega

/-- The per-channel clock-delay field encoding is a byte for the four
channels. -/
theorem mpc_mode_mod (x ch : Nat) (h : ch ≤ 3) :
    AD713X_MPC_CLKDEL_EN_CH_MODE x ch % 256 =
      AD713X_MPC_CLKDEL_EN_CH_MODE x ch := by
  unfold AD713X_MPC_CLKDEL_EN_CH_MODE
  rw [Nat.shiftLeft_eq]
  apply Nat.mod_eq_of_lt
  have h1 : x % 4 ≤ 3 := by omega
  have h2 : (2 : Nat) ^ (2 * ch) ≤ 2 ^ 6 :=
    Nat.pow_le_pow_right (by norm_num) (by omega)
  calc x % 4 * 2 ^ (2 * ch) ≤ 3 * 2 ^ 6 := Nat.mul_le_mul h1 h2
    _ < 256 := by norm_num

/-- The event trace of a successful ad713x_init run in the all-success
environment `w0`, in which every register reads back 0: allocation and
SPI setup, the five GPIO acquisitions, the pin directions, the reset
pulse, then the configuration writes in program order (power mode high,
CLKOUT enable, reference gain correction, output frame index `i`, DOUT
format, the four magnitude/phase clock-delay channels CH3..CH0, the four
wideband-bandwidth selections CH3..CH0). -/
def c7_events (fmt : Nat) (cde mmn dfn don pn : Bool) (i : Nat) :
    List Ev :=
  [Ev.callocDev, Ev.spiInit,
   Ev.gpioGet GpioId.mode, Ev.gpioGet GpioId.dclkmode,
   Ev.gpioGet GpioId.dclkio, Ev.gpioGet GpioId.resetn,
   Ev.gpioGet GpioId.pnd,
   Ev.gpioDirOut GpioId.mode mmn, Ev.gpioDirOut GpioId.dclkmode dfn,
   Ev.gpioDirOut GpioId.dclkio don, Ev.gpioDirOut GpioId.pnd pn,
   Ev.gpioDirOut GpioId.resetn false, Ev.mdelay 100,
   Ev.gpioSet GpioId.resetn true, Ev.mdelay 100,
   Ev.spiXfer [AD713X_REG_READ AD713X_REG_DEVICE_CONFIG, 0],
   Ev.spiXfer [AD713X_REG_DEVICE_CONFIG, AD713X_DEV_CONFIG_PWR_MODE_MSK],
   Ev.spiXfer [AD713X_REG_READ AD713X_REG_DEVICE_CONFIG1, 0],
   Ev.spiXfer [AD713X_REG_DEVICE_CONFIG1, AD713X_DEV_CONFIG1_CLKOUT_EN_MSK],
   Ev.spiXfer [AD713X_REG_READ AD713X_REG_DEVICE_CONFIG1, 0],
   Ev.spiXfer [AD713X_REG_DEVICE_CONFIG1,
     AD713X_DEV_CONFIG1_REF_GAIN_CORR_EN_MSK],
   Ev.spiXfer [AD713X_REG_READ AD713X_REG_DATA_PACKET_CONFIG, 0],
   Ev.spiXfer [AD713X_REG_DATA_PACKET_CONFIG,
     AD713X_DATA_PACKET_CONFIG_FRAME_MODE i],
   Ev.spiXfer [AD713X_REG_READ AD713X_REG_DIGITAL_INTERFACE_CONFIG, 0],
   Ev.spiXfer [AD713X_REG_DIGITAL_INTERFACE_CONFIG,
     AD713X_DIG_INT_CONFIG_FORMAT_MODE fmt],
   Ev.spiXfer [AD713X_REG_READ AD713X_REG_MPC_CONFIG, 0],
   Ev.spiXfer [AD713X_REG_MPC_CONFIG,
     AD713X_MPC_CLKDEL_EN_CH_MODE
       (if cde then DELAY_2_CLOCKS else DELAY_NONE) CH3],
   Ev.spiXfer [AD713X_REG_READ AD713X_REG_MPC_CONFIG, 0],
   Ev.spiXfer [AD713X_REG_MPC_CONFIG,
     AD713X_MPC_CLKDEL_EN_CH_MODE
       (if cde then DELAY_2_CLOCKS else DELAY_NONE) CH2],
   Ev.spiXfer [AD713X_REG_READ AD713X_REG_MPC_CONFIG, 0],
   Ev.spiXfer [AD713X_REG_MPC_CONFIG,
     AD713X_MPC_CLKDEL_EN_CH_MODE
       (if cde then DELAY_2_CLOCKS else DELAY_NONE) CH1],
   Ev.spiXfer [AD713X_REG_READ AD713X_REG_MPC_CONFIG, 0],
   Ev.spiXfer [AD713X_REG_MPC_CONFIG,
     AD713X_MPC_CLKDEL_EN_CH_MODE
       (if cde then DELAY_2_CLOCKS else DELAY_NONE) CH0],
   Ev.spiXfer [AD713X_REG_READ AD713X_REG_FIR_BW_SEL, 0],
   Ev.spiXfer [AD713X_REG_FIR_BW_SEL, 0],
   Ev.spiXfer [AD713X_REG_READ AD713X_REG_FIR_BW_SEL, 0],
   Ev.spiXfer [AD713X_REG_FIR_BW_SEL, 0],
   Ev.spiXfer [AD713X_REG_READ AD713X_REG_FIR_BW_SEL, 0],
   Ev.spiXfer [AD713X_REG_FIR_BW_SEL, 0],
   Ev.spiXfer [AD713X_REG_READ AD713X_REG_FIR_BW_SEL, 0],
   Ev.spiXfer [AD713X_REG_FIR_BW_SEL, 0]]

/-- C7: on the success path (fresh SPI descriptor, every platform call
succeeding, the frame lookup matching at index `i`), ad713x_init first
acquires the five GPIO lines and pulses reset low then high, and only
then performs the configuration sequence power-mode-bit-high, CLKOUT
enable, reference gain correction, output data frame from the init
parameters, DOUT format, magnitude/phase clock delay, wideband bandwidth
option 0 for every channel, in this order; it ends with the device handle
stored (all handles held, the variant id recorded) and SUCCESS. -/
theorem c7_init_success_sequence (dev_id adc crc fmt : Nat)
    (cde mmn dfn don pn : Bool) (i : Nat)
    (hscan : frame_scan (ad713x_output_data_frame.getD dev_id [])
        0 adc crc = some (some i)) :
    ad713x_init w0 st0 ⟨dev_id, adc, crc, fmt, cde, mmn, dfn, don, pn,
        false⟩ =
      some (SUCCESS, some ⟨true, true, true, true, true, true, dev_id⟩,
        ⟨41, c7_events fmt cde mmn dfn don pn i⟩) := by
  simp only [ad713x_init, ad713x_init_rest, ad713x_init_gpio,
    ad713x_set_out_data_frame, ad713x_clkout_output_en,
    ad713x_ref_gain_correction_en, ad713x_dout_format_config,
    ad713x_mag_phase_clk_delay, mpc_loop, ad713x_init_chan_bw, bw_loop,
    ad713x_wideband_bw_sel, ad713x_spi_write_mask, ad713x_spi_reg_read,
    ad713x_spi_reg_write, spi_write_and_read, ncall, w0, st0,
    IS_ERR_VALUE, SUCCESS, hscan, c7_events]
  simp [frame_mode_mod, format_mode_mod,
    mpc_mode_mod _ CH3 (by decide), mpc_mode_mod _ CH2 (by decide),
    mpc_mode_mod _ CH1 (by decide), mpc_mode_mod _ CH0 (by decide)]
  decide

/-- C7 witness: the concrete success run at variant 0, 16-bit data with
CRC-6 (frame index 0), format 0, every pin parameter low. -/
theorem c7_init_success_sequence_witness :
    ad713x_init w0 st0 p1 =
      some (SUCCESS, some ⟨true, true, true, true, true, true, 0⟩,
        ⟨41, c7_events 0 false false false false false 0⟩) :=
  c7_init_success_sequence 0 ADC_16_BIT_DATA CRC_6 0 false false false
    false false 0 (by decide)
